import Mathlib

/-!
Verification development for the SevenX7-MyStore order-lifecycle,
inventory and store-profile logic, shallowly embedded from the
TypeScript sources (`components/MyOrders.tsx`,
`components/customer/CustomerApp.tsx`, the store-owner console
`StoreApp`, and `services/storeAdminService.ts`).

Conventions of the embedding:
* order statuses, fulfilment modes, payment states and delivery types
  are the literal strings the code uses (`"Pending"`, `"DELIVERY"`,
  `"PAID"`, `"SCHEDULED"`, ...);
* JavaScript numbers are modelled as rationals;
* JavaScript truthiness on a string is the test against `""`, on a
  number the test against `0`, and on a possibly-undefined value an
  `Option`;
* code that can throw is modelled as an `Option`- or `Except`-valued
  function;
* JSON objects used as string-keyed records are association lists.
-/

namespace MyStore

/-- A cart line item as built by `addToCart` in `CustomerApp.tsx`.
Presentation-only fields (`emoji`, `storeType`, category text) are
omitted; `price` is the unit price snapshot taken when the item was
added. -/
structure CartItem where
  id : String
  originalProductId : String
  name : String
  price : ℚ
  quantity : Int
  selectedBrand : String
  storeId : String
  storeName : String
deriving DecidableEq, Repr

/-- The `Order` record of `types.ts`.  The optional geo coordinates and
payment-split breakdown are not touched by any verified operation and
are omitted. -/
structure Order where
  id : String
  date : String
  items : List CartItem
  total : ℚ
  status : String
  paymentStatus : String
  mode : String
  deliveryType : String
  scheduledTime : Option String
  deliveryAddress : String
  storeName : String
  customerName : String
  customerPhone : String
deriving DecidableEq, Repr

/-- One step of the demo-mode simulator in `MyOrders.tsx` (the body of
the `setInterval` callback, applied to a single order): scheduled
orders with pending payment and terminal orders are returned unchanged,
otherwise the status advances by one step. -/
def simTick (o : Order) : Order :=
  if o.deliveryType = "SCHEDULED" ∧ o.paymentStatus = "PENDING" then o
  else if o.status = "Cancelled" ∨ o.status = "Delivered" ∨ o.status = "Picked Up" then o
  else if o.status = "Pending" then { o with status := "Preparing" }
  else if o.status = "Preparing" then
    { o with status := if o.mode = "DELIVERY" then "On the way" else "Ready" }
  else if o.status = "On the way" then { o with status := "Delivered" }
  else if o.status = "Ready" then { o with status := "Picked Up" }
  else o

/-- The simulator maps `simTick` over every stored order on each tick. -/
def simTickAll (orders : List Order) : List Order :=
  orders.map simTick

/-- The fixed interval of the demo simulator, in milliseconds
(`setInterval(..., 15000)`). -/
def simIntervalMs : Nat := 15000

/-- JavaScript `Array.indexOf` on a list of strings: the first index of
the element, or `-1` when the element does not occur. -/
def jsIndexOf (l : List String) (s : String) : Int :=
  match l with
  | [] => -1
  | a :: rest =>
    if a = s then 0
    else if jsIndexOf rest s = -1 then -1 else jsIndexOf rest s + 1

/-- Result of `getStatusInfo` in `MyOrders.tsx` (the label/icon helpers
are modelled separately). -/
structure StatusInfo where
  steps : List String
  currentIndex : Int
  progress : ℚ
deriving DecidableEq, Repr

/-- The delivery-mode step list of `getStatusInfo`. -/
def deliverySteps : List String := ["Pending", "Preparing", "On the way", "Delivered"]

/-- The pickup-mode step list of `getStatusInfo`. -/
def pickupSteps : List String := ["Pending", "Preparing", "Ready", "Picked Up"]

/-- `getStatusInfo` from `MyOrders.tsx`: position of the current status
in the mode-specific step list (via `indexOf`) and the percentage
progress `(currentIndex / (steps.length - 1)) * 100`. -/
def getStatusInfo (status : String) (mode : String) : StatusInfo :=
  let steps := if mode = "DELIVERY" then deliverySteps else pickupSteps
  let currentIndex := jsIndexOf steps status
  { steps := steps
    currentIndex := currentIndex
    progress := ((currentIndex : ℚ) / ((steps.length : ℚ) - 1)) * 100 }

/-- The `getLabel` helper of `getStatusInfo`: display label of a step;
in particular the internal placed state `"Pending"` is shown to the
customer as `"Placed"`. -/
def getLabel (step : String) : String :=
  if step = "Pending" then "Placed"
  else if step = "Preparing" then "Packing"
  else if step = "On the way" then "On Way"
  else if step = "Ready" then "Ready"
  else if step = "Picked Up" then "Picked Up"
  else step

/-- The single-row payload delivered to the `subscribeToUserOrders`
callback in `MyOrders.tsx` (the fields the callback reads). -/
structure DbOrderUpdate where
  id : String
  status : String
deriving DecidableEq, Repr

/-- The inline db-status-to-app-status mapping inside the
`subscribeToUserOrders` callback of `MyOrders.tsx`.  The source assigns
`'Pending'` and then runs independent `if` statements; since the tested
strings are pairwise distinct this is the same as the chain below. -/
def mapDbStatusMyOrders (dbStatus : String) : String :=
  if dbStatus = "packing" then "Preparing"
  else if dbStatus = "ready" then "Ready"
  else if dbStatus = "on_way" then "On the way"
  else if dbStatus = "delivered" then "Delivered"
  else if dbStatus = "picked_up" then "Picked Up"
  else if dbStatus = "cancelled" then "Cancelled"
  else "Pending"

/-- The customer-side realtime handler of `MyOrders.tsx`: on a change
event for one order row it maps over the previous local list and
replaces the status of the order with the matching id. -/
def customerRealtimeUpdate (prev : List Order) (u : DbOrderUpdate) : List Order :=
  prev.map fun o => if o.id = u.id then { o with status := mapDbStatusMyOrders u.status } else o

/-- The store-owner realtime handler of `StoreApp`: on any change event
it runs `getIncomingOrders` and stores the result, so the new local
state is the fetched set, independent of the previous state. -/
def ownerRealtimeUpdate (_prev : List Order) (fetched : List Order) : List Order :=
  fetched

/-- Modelled from the spec (§4.3, Live mode): on any change event,
re-fetch the full current order set for the identity and replace local
state wholesale.  Used only to compare the code's handlers against the
spec's words. -/
def wholesaleRefetch (fetched : List Order) : List Order :=
  fetched

/-- A catalog product, restricted to the fields `addToCart` reads. -/
structure Product where
  id : String
  name : String
  price : ℚ
deriving DecidableEq, Repr

/-- The selected store, restricted to the fields `addToCart` reads. -/
structure StoreRef where
  id : String
  name : String
deriving DecidableEq, Repr

/-- `addToCart` from `CustomerApp.tsx`.  With no selected store the cart
is unchanged; an existing line for the same product and brand has its
quantity incremented (price untouched); otherwise a new line is appended
whose price is the `price` argument when truthy, else the catalog price
(`price || product.price`).  `now` stands for `Date.now()` in the
generated id. -/
def addToCart (selectedStore : Option StoreRef) (cart : List CartItem) (product : Product)
    (quantity : Int) (brandName : String) (price : Option ℚ) (now : String) : List CartItem :=
  match selectedStore with
  | none => cart
  | some store =>
    let finalPrice := match price with
      | some p => if p = 0 then product.price else p
      | none => product.price
    match cart.findIdx? (fun item =>
        item.originalProductId == product.id && item.selectedBrand == brandName) with
    | some idx =>
      match cart[idx]? with
      | some item => cart.set idx { item with quantity := item.quantity + quantity }
      | none => cart
    | none =>
      cart ++ [{ id := product.id ++ "-" ++ brandName ++ "-" ++ now
                 originalProductId := product.id
                 name := product.name
                 price := finalPrice
                 quantity := quantity
                 selectedBrand := brandName
                 storeId := store.id
                 storeName := store.name }]

/-- The order details captured by `handlePlaceOrder` and read by
`handlePaymentSuccess`. -/
structure PendingDetails where
  deliveryType : String
  scheduledTime : Option String
deriving DecidableEq, Repr

/-- `handlePaymentSuccess` from `CustomerApp.tsx`, as the order record
it constructs.  Without pending details the function returns early; on
an empty cart the expression `cart[0].storeName` throws a `TypeError`
before any order exists, so both cases are `none`.  The total is
`cart.reduce((sum, item) => sum + item.price * item.quantity, 0)`. -/
def handlePaymentSuccess (pendingOrderDetails : Option PendingDetails) (cart : List CartItem)
    (now userAddress userName userPhone : String) : Option Order :=
  match pendingOrderDetails with
  | none => none
  | some details =>
    match cart with
    | [] => none
    | first :: _ =>
      some { id := "ord-" ++ now
             date := now
             items := cart
             total := (cart.map fun item => item.price * (item.quantity : ℚ)).sum
             status := "Pending"
             paymentStatus := "PAID"
             mode := "DELIVERY"
             deliveryType := details.deliveryType
             scheduledTime := details.scheduledTime
             deliveryAddress := if userAddress = "" then "Current Location" else userAddress
             storeName := first.storeName
             customerName := userName
             customerPhone := userPhone }

/-- The status-update actions the store-owner orders tab (`StoreApp`)
offers for an order, keyed by its current status: the new status values
of the `handleOrderStatus` buttons rendered at that status. -/
def ownerActions (status : String) : List String :=
  (if status = "Placed" then ["Rejected", "Accepted"] else []) ++
  (if status = "Accepted" then ["Preparing"] else []) ++
  (if status = "Preparing" then ["Ready"] else []) ++
  (if status = "Ready" then ["Picked Up"] else [])

/-- The demo branch of `handleOrderStatus` in `StoreApp`: set the status
of the order with the given id, leaving everything else unchanged. -/
def demoOrderStatusUpdate (orders : List Order) (orderId status : String) : List Order :=
  orders.map fun o => if o.id = orderId then { o with status := status } else o

/-- `mapDbStatusToAppStatus` from `storeAdminService.ts`. -/
def mapDbStatusToAppStatus (dbStatus : String) : String :=
  if dbStatus = "placed" then "Placed"
  else if dbStatus = "accepted" then "Accepted"
  else if dbStatus = "packing" then "Preparing"
  else if dbStatus = "ready" then "Ready"
  else if dbStatus = "on_way" then "On the way"
  else if dbStatus = "delivered" then "Delivered"
  else if dbStatus = "picked_up" then "Picked Up"
  else if dbStatus = "cancelled" then "Cancelled"
  else if dbStatus = "rejected" then "Rejected"
  else "Pending"

/-- A row of the `orders` table as read by `getIncomingOrders`
(`typeField` is the `type` column, with `""` standing for SQL NULL). -/
structure DbOrderRow where
  id : String
  created_at : String
  items : List CartItem
  total_amount : ℚ
  status : String
  typeField : String
  delivery_address : String
  customer_id : String
deriving DecidableEq, Repr

/-- A row of the `profiles` table as read by `getIncomingOrders`. -/
structure ProfileRow where
  id : String
  full_name : String
  phone_number : String
deriving DecidableEq, Repr

/-- `profilesMap[row.customer_id]?.full_name || 'Guest'`. -/
def profileName (profiles : List ProfileRow) (cid : String) : String :=
  match profiles.find? (fun p => p.id == cid) with
  | some p => if p.full_name = "" then "Guest" else p.full_name
  | none => "Guest"

/-- `profilesMap[row.customer_id]?.phone_number || ''`. -/
def profilePhone (profiles : List ProfileRow) (cid : String) : String :=
  match profiles.find? (fun p => p.id == cid) with
  | some p => p.phone_number
  | none => ""

/-- The per-row mapping inside `getIncomingOrders`: payment status and
delivery type are hard-coded (`'PAID'`, `'INSTANT'`), the mode is
`row.type || 'DELIVERY'`. -/
def mapIncomingRow (profiles : List ProfileRow) (row : DbOrderRow) : Order :=
  { id := row.id
    date := row.created_at
    items := row.items
    total := row.total_amount
    status := mapDbStatusToAppStatus row.status
    paymentStatus := "PAID"
    mode := if row.typeField = "" then "DELIVERY" else row.typeField
    deliveryType := "INSTANT"
    scheduledTime := none
    deliveryAddress := row.delivery_address
    storeName := "My Store"
    customerName := profileName profiles row.customer_id
    customerPhone := profilePhone profiles row.customer_id }

/-- `getIncomingOrders` from `storeAdminService.ts`, as a function of
the result of the orders query and the fetched profile rows: any thrown
backend error is caught and turned into the empty list. -/
def getIncomingOrders (fetched : Except String (List DbOrderRow))
    (profiles : List ProfileRow) : List Order :=
  match fetched with
  | .error _ => []
  | .ok rows => rows.map (mapIncomingRow profiles)

/-- The update argument of `updateStoreProfile` (a `Partial<Store>`):
`none` models an absent field. -/
structure StoreUpdates where
  name : Option String
  address : Option String
  upiId : Option String
  lat : Option ℚ
  lng : Option ℚ
deriving DecidableEq, Repr

/-- The `dbUpdates` object built by `updateStoreProfile`: a column is
present exactly when the corresponding update field is truthy. -/
structure DbStoreUpdates where
  name : Option String
  address : Option String
  upi_id : Option String
  lat : Option ℚ
  lng : Option ℚ
deriving DecidableEq, Repr

/-- JavaScript truthiness filter on an optional string: `""` is falsy. -/
def truthyStr : Option String → Option String
  | some s => if s = "" then none else some s
  | none => none

/-- JavaScript truthiness filter on an optional number: `0` is falsy. -/
def truthyNum : Option ℚ → Option ℚ
  | some x => if x = 0 then none else some x
  | none => none

/-- The `dbUpdates` construction of `updateStoreProfile`
(`if (updates.name) dbUpdates.name = updates.name;` and so on). -/
def buildDbUpdates (u : StoreUpdates) : DbStoreUpdates :=
  { name := truthyStr u.name
    address := truthyStr u.address
    upi_id := truthyStr u.upiId
    lat := truthyNum u.lat
    lng := truthyNum u.lng }

/-- The columns of a `stores` row touched by `updateStoreProfile`. -/
structure StoreRow where
  name : String
  address : String
  upi_id : String
  lat : ℚ
  lng : ℚ
deriving DecidableEq, Repr

/-- Row-level semantics of the backend `update`: a column is replaced
exactly when it is present in the update object. -/
def applyDbUpdates (row : StoreRow) (u : DbStoreUpdates) : StoreRow :=
  { name := u.name.getD row.name
    address := u.address.getD row.address
    upi_id := u.upi_id.getD row.upi_id
    lat := u.lat.getD row.lat
    lng := u.lng.getD row.lng }

/-- `updateStoreProfile` from `storeAdminService.ts`, as its effect on
the targeted store row. -/
def updateStoreProfile (row : StoreRow) (u : StoreUpdates) : StoreRow :=
  applyDbUpdates row (buildDbUpdates u)

/-- A brand option of a catalog product (`BrandOption` of `types.ts`). -/
structure BrandOption where
  name : String
  price : ℚ
deriving DecidableEq, Repr

/-- Per-brand-variant inventory override (`BrandInventoryInfo`). -/
structure BrandInventoryInfo where
  price : ℚ
  mrp : ℚ
  stock : Int
  inStock : Bool
deriving DecidableEq, Repr

/-- A store inventory item (`InventoryItem` of `types.ts`), with the
`Record<string, BrandInventoryInfo>` brand overrides modelled as an
association list. -/
structure InventoryItem where
  id : String
  name : String
  price : ℚ
  mrp : ℚ
  brands : List BrandOption
  inStock : Bool
  stock : Int
  storePrice : ℚ
  isActive : Bool
  brandDetails : List (String × BrandInventoryInfo)
deriving DecidableEq, Repr

/-- JavaScript object spread update `{...details, [k]: v}`: replace the
binding of `k` in place if present, otherwise append it. -/
def setBrandKey (m : List (String × BrandInventoryInfo)) (k : String)
    (v : BrandInventoryInfo) : List (String × BrandInventoryInfo) :=
  if m.any (fun p => p.1 == k) then m.map (fun p => if p.1 = k then (k, v) else p)
  else m ++ [(k, v)]

/-- Key lookup in the brand-details object (`details[brandName]`). -/
def lookupBrand (m : List (String × BrandInventoryInfo)) (k : String) :
    Option BrandInventoryInfo :=
  (m.find? (fun p => p.1 == k)).map Prod.snd

/-- `Object.values(details).reduce((sum, b) => sum + (b.inStock ? b.stock : 0), 0)`. -/
def sumOfferedStock (m : List (String × BrandInventoryInfo)) : Int :=
  (m.map fun p => if p.2.inStock then p.2.stock else 0).sum

/-- The `(field, value)` argument pair of `handleBrandInventoryUpdate`
(`field: keyof BrandInventoryInfo, value: any`), as a typed sum. -/
inductive BrandFieldUpdate where
  | price (v : ℚ)
  | mrp (v : ℚ)
  | stock (v : Int)
  | inStock (v : Bool)
deriving DecidableEq, Repr

/-- `{ ...brandInfo, [field]: value }`. -/
def applyBrandField (b : BrandInventoryInfo) : BrandFieldUpdate → BrandInventoryInfo
  | .price v => { b with price := v }
  | .mrp v => { b with mrp := v }
  | .stock v => { b with stock := v }
  | .inStock v => { b with inStock := v }

/-- The `field === 'stock' || field === 'inStock'` test guarding the
aggregate-stock recomputation. -/
def isStockField : BrandFieldUpdate → Bool
  | .stock _ => true
  | .inStock _ => true
  | .price _ => false
  | .mrp _ => false

/-- `product.mrp || product.price` (the falsy-mrp fallback). -/
def mrpOrPrice (product : InventoryItem) : ℚ :=
  if product.mrp = 0 then product.price else product.mrp

/-- The optimistic item update performed by `handleInventoryUpdate`
(`StoreApp`) on the matching inventory item: store price, mrp, offered
flag, stock and brand details are replaced (brand details only when a
new object is given), and the item is marked active. -/
def handleInventoryUpdateItem (product : InventoryItem) (newPrice : ℚ)
    (newStockStatus : Bool) (newStockQty : Int) (newMrp : Option ℚ)
    (newBrandDetails : Option (List (String × BrandInventoryInfo))) : InventoryItem :=
  let finalMrp := match newMrp with
    | some v => v
    | none => mrpOrPrice product
  let finalBrandDetails := match newBrandDetails with
    | some bd => bd
    | none => product.brandDetails
  { product with
    storePrice := newPrice
    mrp := finalMrp
    inStock := newStockStatus
    stock := newStockQty
    isActive := true
    brandDetails := finalBrandDetails }

/-- `handleBrandInventoryUpdate` (`StoreApp`): update one brand variant
of the item.  The default for a brand with no override so far uses the
catalog brand price when truthy, else `product.mrp || product.price`;
when the updated field is the variant stock or offered flag, the
aggregate stock is recomputed as the offered-variant stock sum; the
result is handed to `handleInventoryUpdate` with all top-level fields
taken unchanged from the item. -/
def handleBrandInventoryUpdateItem (product : InventoryItem) (brandName : String)
    (upd : BrandFieldUpdate) : InventoryItem :=
  let currentDetails := product.brandDetails
  let brandInfo := match lookupBrand currentDetails brandName with
    | some b => b
    | none =>
      { price := product.storePrice
        mrp := match product.brands.find? (fun b => b.name == brandName) with
          | some b => if b.price = 0 then mrpOrPrice product else b.price
          | none => mrpOrPrice product
        stock := 0
        inStock := true }
  let updatedBrandInfo := applyBrandField brandInfo upd
  let newBrandDetails := setBrandKey currentDetails brandName updatedBrandInfo
  let newTotalStock := if isStockField upd then sumOfferedStock newBrandDetails
    else product.stock
  handleInventoryUpdateItem product product.storePrice product.inStock newTotalStock
    (some product.mrp) (some newBrandDetails)

/-- The top-level in-stock toggle button of the inventory tab:
`handleInventoryUpdate(item, item.storePrice, !item.inStock, item.stock,
item.mrp)` with no brand-details argument. -/
def toggleItemStock (item : InventoryItem) : InventoryItem :=
  handleInventoryUpdateItem item item.storePrice (!item.inStock) item.stock
    (some item.mrp) none

/-- Modelled from the spec (§4.2): the delivery-mode progression as the
spec words it, including the `Accepted` stage.  Used only to compare the
code's transition behaviour against the spec's sequence. -/
def specDeliverySequence : List String :=
  ["Placed", "Accepted", "Preparing", "On the way", "Delivered"]

/-- Modelled from the spec (§4.2): the pickup-mode progression as the
spec words it. -/
def specPickupSequence : List String :=
  ["Placed", "Accepted", "Preparing", "Ready", "Picked Up"]

/-- An order stripped of its status, to state which fields an update
leaves untouched. -/
def eraseStatus (o : Order) : Order :=
  { o with status := "" }

/-- Sample data: a paid instant delivery order in the placed state. -/
def sampleDeliveryOrder : Order :=
  { id := "ord-1"
    date := "2024-01-01"
    items := []
    total := 120
    status := "Pending"
    paymentStatus := "PAID"
    mode := "DELIVERY"
    deliveryType := "INSTANT"
    scheduledTime := none
    deliveryAddress := "MG Road"
    storeName := "Fresh Mart"
    customerName := "Asha"
    customerPhone := "999"  }

/-- Sample data: one cart line. -/
def sampleCartItem : CartItem :=
  { id := "p1-Generic-t0"
    originalProductId := "p1"
    name := "Rice"
    price := 40
    quantity := 3
    selectedBrand := "Generic"
    storeId := "s1"
    storeName := "Fresh Mart" }

/-- Sample data: a catalog product. -/
def sampleProduct : Product :=
  { id := "p2", name := "Milk", price := 30 }

/-- Sample data: the order `handlePaymentSuccess` builds from
`[sampleCartItem]` at time `"t0"`. -/
def sampleCreatedOrder : Order :=
  { id := "ord-t0"
    date := "t0"
    items := [sampleCartItem]
    total := 120
    status := "Pending"
    paymentStatus := "PAID"
    mode := "DELIVERY"
    deliveryType := "INSTANT"
    scheduledTime := none
    deliveryAddress := "MG Road"
    storeName := "Fresh Mart"
    customerName := "Asha"
    customerPhone := "999" }

/-- Sample data: an orders-table row. -/
def sampleDbRow : DbOrderRow :=
  { id := "ord-7"
    created_at := "t0"
    items := [sampleCartItem]
    total_amount := 120
    status := "placed"
    typeField := ""
    delivery_address := "MG Road"
    customer_id := "c1" }

/-- Sample data: a stores-table row. -/
def sampleStoreRow : StoreRow :=
  { name := "Fresh Mart"
    address := "MG Road"
    upi_id := "fresh@upi"
    lat := 12
    lng := 77 }

/-- C7: order creation rejects an empty cart — for every pending-details
value and user context, `handlePaymentSuccess` on an empty cart fails
(in the source the `cart[0].storeName` access throws before any order
exists) and produces no order record. -/
theorem C7_empty_cart_rejected (details : Option PendingDetails)
    (now userAddress userName userPhone : String) :
    handlePaymentSuccess details [] now userAddress userName userPhone = none := by
  cases details <;> rfl

/-- C2: under the demo simulator, an order in the placed state (the
string `"Pending"`, displayed as `Placed`) with mode `DELIVERY` and
payment status `PAID` reaches `Delivered` after exactly three ticks of
the fixed 15-second interval, via `Preparing` and `On the way`, one
step per tick. -/
theorem C2_demo_delivery_three_ticks (o : Order) (h1 : o.status = "Pending")
    (h2 : o.mode = "DELIVERY") (h3 : o.paymentStatus = "PAID") :
    (simTick o).status = "Preparing" ∧
    (simTick (simTick o)).status = "On the way" ∧
    (simTick (simTick (simTick o))).status = "Delivered" ∧
    (simTick o).status ≠ "Delivered" ∧
    (simTick (simTick o)).status ≠ "Delivered" ∧
    getLabel "Pending" = "Placed" ∧ simIntervalMs = 15000 := by
  simp [simTick, getLabel, simIntervalMs, h1, h2, h3]

/-- Witness for C2 at a concrete order. -/
theorem C2_demo_delivery_three_ticks_witness :
    (simTick sampleDeliveryOrder).status = "Preparing" ∧
    (simTick (simTick sampleDeliveryOrder)).status = "On the way" ∧
    (simTick (simTick (simTick sampleDeliveryOrder))).status = "Delivered" ∧
    (simTick sampleDeliveryOrder).status ≠ "Delivered" ∧
    (simTick (simTick sampleDeliveryOrder)).status ≠ "Delivered" ∧
    getLabel "Pending" = "Placed" ∧ simIntervalMs = 15000 :=
  C2_demo_delivery_three_ticks sampleDeliveryOrder rfl rfl rfl

/-- C6 counterexample: an instant-type order with payment status
`PENDING` in the placed state is advanced by the demo simulator tick,
so pending payment does not freeze every order. -/
theorem C6_pending_freeze_cex :
    ({ sampleDeliveryOrder with
        paymentStatus := "PENDING", deliveryType := "INSTANT" } : Order).paymentStatus
      = "PENDING" ∧
    ({ sampleDeliveryOrder with
        paymentStatus := "PENDING", deliveryType := "INSTANT" } : Order).status
      = "Pending" ∧
    (simTick { sampleDeliveryOrder with
        paymentStatus := "PENDING", deliveryType := "INSTANT" }).status = "Preparing" ∧
    ("Preparing" : String) ≠ "Pending" := by
  decide

/-- C6 amended: only a scheduled order with payment status `PENDING` is
frozen by the demo simulator — such an order is returned unchanged by
every tick. -/
theorem C6_pending_freeze_amended (o : Order) (h1 : o.deliveryType = "SCHEDULED")
    (h2 : o.paymentStatus = "PENDING") : simTick o = o := by
  simp [simTick, h1, h2]

/-- Witness for the amended C6 at a concrete scheduled unpaid order. -/
theorem C6_pending_freeze_amended_witness :
    simTick { sampleDeliveryOrder with
        deliveryType := "SCHEDULED", paymentStatus := "PENDING" } =
      { sampleDeliveryOrder with
        deliveryType := "SCHEDULED", paymentStatus := "PENDING" } :=
  C6_pending_freeze_amended _ rfl rfl

/-- C8: after a per-variant stock or offered-flag update, the item's
aggregate stock equals the sum of stock over the variants marked
offered; and the top-level in-stock toggle flips only the aggregate
offered flag, leaving the variant-level data (and the item's price,
mrp and stock) unchanged. -/
theorem C8_brand_aggregate (p item : InventoryItem) (brandName : String)
    (vs : Int) (vb : Bool) :
    (handleBrandInventoryUpdateItem p brandName (.stock vs)).stock =
      sumOfferedStock (handleBrandInventoryUpdateItem p brandName (.stock vs)).brandDetails ∧
    (handleBrandInventoryUpdateItem p brandName (.inStock vb)).stock =
      sumOfferedStock (handleBrandInventoryUpdateItem p brandName (.inStock vb)).brandDetails ∧
    (toggleItemStock item).brandDetails = item.brandDetails ∧
    (toggleItemStock item).inStock = !item.inStock ∧
    (toggleItemStock item).storePrice = item.storePrice ∧
    (toggleItemStock item).mrp = item.mrp ∧
    (toggleItemStock item).stock = item.stock := by
  refine ⟨?_, ?_, rfl, rfl, rfl, rfl, rfl⟩ <;>
    simp [handleBrandInventoryUpdateItem, handleInventoryUpdateItem, isStockField]

/-- C1 counterexample: from the placed state a demo-simulator tick moves
a paid delivery order directly to `Preparing`, skipping the `Accepted`
stage of the spec's delivery sequence; and the store-owner action at
`Preparing` offers only `Ready` (the pickup-style step), never
`On the way`, for every mode. -/
theorem C1_progression_cex :
    sampleDeliveryOrder.status = "Pending" ∧
    getLabel "Pending" = "Placed" ∧
    sampleDeliveryOrder.mode = "DELIVERY" ∧
    sampleDeliveryOrder.paymentStatus = "PAID" ∧
    (simTick sampleDeliveryOrder).status = "Preparing" ∧
    specDeliverySequence[1]? = some "Accepted" ∧
    specDeliverySequence[2]? = some "Preparing" ∧
    ("Preparing" : String) ≠ "Accepted" ∧
    ownerActions "Preparing" = ["Ready"] ∧
    "On the way" ∉ ownerActions "Preparing" := by
  decide

/-- C1 amended: the progressions the code actually implements.  The demo
simulator advances every eligible order one step along
`Pending → Preparing → (On the way | Ready) → (Delivered | Picked Up)`
choosing `On the way` exactly in delivery mode, and leaves terminal
orders unchanged; there is no `Accepted` state in the simulator.  The
store-owner actions follow
`Placed → Accepted → Preparing → Ready → Picked Up` for every mode,
with `Rejected` available only at `Placed` and no action elsewhere. -/
theorem C1_progression_amended (o : Order)
    (h : ¬(o.deliveryType = "SCHEDULED" ∧ o.paymentStatus = "PENDING")) :
    ((o.status = "Pending" → (simTick o).status = "Preparing") ∧
     (o.status = "Preparing" →
        (simTick o).status = if o.mode = "DELIVERY" then "On the way" else "Ready") ∧
     (o.status = "On the way" → (simTick o).status = "Delivered") ∧
     (o.status = "Ready" → (simTick o).status = "Picked Up") ∧
     (o.status = "Cancelled" ∨ o.status = "Delivered" ∨ o.status = "Picked Up" →
        simTick o = o)) ∧
    (ownerActions "Placed" = ["Rejected", "Accepted"] ∧
     ownerActions "Accepted" = ["Preparing"] ∧
     ownerActions "Preparing" = ["Ready"] ∧
     ownerActions "Ready" = ["Picked Up"] ∧
     (∀ s : String, s ≠ "Placed" → s ≠ "Accepted" → s ≠ "Preparing" → s ≠ "Ready" →
        ownerActions s = [])) := by
  constructor
  · refine ⟨?_, ?_, ?_, ?_, ?_⟩ <;> intro hs
    · simp [simTick, hs, h]
    · simp [simTick, hs, h]
    · simp [simTick, hs, h]
    · simp [simTick, hs, h]
    · rcases hs with hs | hs | hs <;> simp [simTick, hs, h]
  · refine ⟨rfl, rfl, rfl, rfl, ?_⟩
    intro s h1 h2 h3 h4
    simp [ownerActions, h1, h2, h3, h4]

/-- Witness for the amended C1 at a concrete order and status. -/
theorem C1_progression_amended_witness :
    (simTick sampleDeliveryOrder).status = "Preparing" ∧
    ownerActions "Accepted" = ["Preparing"] :=
  ⟨((C1_progression_amended sampleDeliveryOrder (by decide)).1).1 rfl,
   ((C1_progression_amended sampleDeliveryOrder (by decide)).2).2.1⟩

/-- `Array.indexOf` yields `-1` exactly when the element is absent. -/
theorem jsIndexOf_not_mem (l : List String) (s : String) (h : s ∉ l) :
    jsIndexOf l s = -1 := by
  induction l with
  | nil => rfl
  | cons a rest ih =>
    simp only [List.mem_cons, not_or] at h
    simp [jsIndexOf, Ne.symm h.1, ih h.2]

/-- C3 counterexample: the progress computation gives a status outside
the step list (here the store-owner-side status `"Placed"`) the
`indexOf` fallback `-1`, not `0`, and the resulting progress fraction is
negative, not `0`. -/
theorem C3_unknown_status_cex :
    (getStatusInfo "Placed" "DELIVERY").currentIndex = -1 ∧
    ((-1 : Int) ≠ 0) ∧
    (getStatusInfo "Placed" "DELIVERY").progress = -100 / 3 ∧
    (getStatusInfo "Placed" "DELIVERY").progress ≠ 0 := by
  have hidx : jsIndexOf deliverySteps "Placed" = -1 := by decide
  refine ⟨?_, by decide, ?_, ?_⟩ <;>
    simp [getStatusInfo, deliverySteps] at hidx ⊢ <;>
    rw [hidx] <;>
    norm_num

/-- C3 amended: every status string outside the mode-specific step list
is treated as index `-1` (the JavaScript `indexOf` fallback), so the
rendered progress fraction is `-1/3` of 100; the computation is total,
so rendering is never blocked by an error. -/
theorem C3_unknown_status_amended (status mode : String)
    (h : status ∉ (if mode = "DELIVERY" then deliverySteps else pickupSteps)) :
    (getStatusInfo status mode).currentIndex = -1 ∧
    (getStatusInfo status mode).progress = -100 / 3 := by
  have hidx := jsIndexOf_not_mem _ _ h
  by_cases hm : mode = "DELIVERY" <;>
    simp only [hm, ite_true, ite_false, deliverySteps, pickupSteps] at hidx <;>
    refine ⟨?_, ?_⟩ <;>
    simp [getStatusInfo, hm, deliverySteps, pickupSteps] <;>
    rw [hidx] <;>
    norm_num

/-- Witness for the amended C3 at the concrete status `"Placed"`. -/
theorem C3_unknown_status_amended_witness :
    (getStatusInfo "Placed" "DELIVERY").currentIndex = -1 ∧
    (getStatusInfo "Placed" "DELIVERY").progress = -100 / 3 :=
  C3_unknown_status_amended "Placed" "DELIVERY" (by decide)

/-- C4 counterexample: a change event for an order that is not in the
customer view's local list leaves the local state empty, while the
wholesale re-fetch the claim describes would return the full current set
containing that order — so the customer side does not re-fetch and
replace wholesale. -/
theorem C4_live_refetch_cex :
    customerRealtimeUpdate [] { id := "ord-9", status := "placed" } = [] ∧
    wholesaleRefetch [sampleDeliveryOrder] = [sampleDeliveryOrder] ∧
    customerRealtimeUpdate [] { id := "ord-9", status := "placed" } ≠
      wholesaleRefetch [sampleDeliveryOrder] := by
  refine ⟨rfl, rfl, ?_⟩
  simp [customerRealtimeUpdate, wholesaleRefetch]

/-- C4 amended: in live mode the store-owner incoming-orders handler
replaces local state wholesale with the re-fetched set (independently of
the previous state), while the customer-side handler performs a
field-level merge: it keeps the list length and every field of every
order except the status of the order with the matching id. -/
theorem C4_live_refetch_amended :
    (∀ prevA prevB fetched : List Order,
       ownerRealtimeUpdate prevA fetched = fetched ∧
       ownerRealtimeUpdate prevA fetched = ownerRealtimeUpdate prevB fetched) ∧
    (∀ (prev : List Order) (u : DbOrderUpdate),
       (customerRealtimeUpdate prev u).length = prev.length ∧
       (customerRealtimeUpdate prev u).map eraseStatus = prev.map eraseStatus) := by
  refine ⟨fun _ _ _ => ⟨rfl, rfl⟩, fun prev u => ⟨by simp [customerRealtimeUpdate], ?_⟩⟩
  induction prev with
  | nil => rfl
  | cons o rest ih =>
    simp only [customerRealtimeUpdate, List.map_cons] at ih ⊢
    refine congrArg₂ _ ?_ ih
    by_cases hid : o.id = u.id <;> simp [hid, eraseStatus]

/-- C9: every order produced by the store-owner incoming-orders fetch
has payment status `PAID` and delivery type `INSTANT` regardless of the
row contents, and a backend error yields the empty list instead of an
exception. -/
theorem C9_incoming_orders_paid_instant :
    (∀ (rows : List DbOrderRow) (profiles : List ProfileRow) (o : Order),
       o ∈ getIncomingOrders (Except.ok rows) profiles →
       o.paymentStatus = "PAID" ∧ o.deliveryType = "INSTANT") ∧
    (∀ (e : String) (profiles : List ProfileRow),
       getIncomingOrders (Except.error e) profiles = []) := by
  constructor
  · intro rows profiles o ho
    simp only [getIncomingOrders, List.mem_map] at ho
    obtain ⟨row, _, rfl⟩ := ho
    exact ⟨rfl, rfl⟩
  · intro e profiles
    rfl

/-- Witness for C9 at a concrete row whose stored status is `placed`. -/
theorem C9_incoming_orders_paid_instant_witness :
    (mapIncomingRow [] sampleDbRow).paymentStatus = "PAID" ∧
    (mapIncomingRow [] sampleDbRow).deliveryType = "INSTANT" :=
  C9_incoming_orders_paid_instant.1 [sampleDbRow] [] (mapIncomingRow [] sampleDbRow)
    (by simp [getIncomingOrders])

/-- C10: the store-profile update silently drops every falsy field — an
absent or empty-string name, address or UPI id, and an absent or zero
latitude or longitude are never written, so the stored column keeps its
previous value; a truthy field is written. -/
theorem C10_profile_falsy_dropped (row : StoreRow) (u : StoreUpdates) :
    (u.name = none ∨ u.name = some "" → (updateStoreProfile row u).name = row.name) ∧
    (u.address = none ∨ u.address = some "" →
       (updateStoreProfile row u).address = row.address) ∧
    (u.upiId = none ∨ u.upiId = some "" →
       (updateStoreProfile row u).upi_id = row.upi_id) ∧
    (u.lat = none ∨ u.lat = some 0 → (updateStoreProfile row u).lat = row.lat) ∧
    (u.lng = none ∨ u.lng = some 0 → (updateStoreProfile row u).lng = row.lng) ∧
    (∀ s : String, u.name = some s → s ≠ "" → (updateStoreProfile row u).name = s) ∧
    (∀ x : ℚ, u.lat = some x → x ≠ 0 → (updateStoreProfile row u).lat = x) := by
  refine ⟨?_, ?_, ?_, ?_, ?_, ?_, ?_⟩
  · rintro (h | h) <;>
      simp [updateStoreProfile, buildDbUpdates, applyDbUpdates, truthyStr, h]
  · rintro (h | h) <;>
      simp [updateStoreProfile, buildDbUpdates, applyDbUpdates, truthyStr, h]
  · rintro (h | h) <;>
      simp [updateStoreProfile, buildDbUpdates, applyDbUpdates, truthyStr, h]
  · rintro (h | h) <;>
      simp [updateStoreProfile, buildDbUpdates, applyDbUpdates, truthyNum, h]
  · rintro (h | h) <;>
      simp [updateStoreProfile, buildDbUpdates, applyDbUpdates, truthyNum, h]
  · intro s hs hne
    simp [updateStoreProfile, buildDbUpdates, applyDbUpdates, truthyStr, hs, hne]
  · intro x hx hne
    simp [updateStoreProfile, buildDbUpdates, applyDbUpdates, truthyNum, hx, hne]

/-- Witness for C10: a concrete update carrying an empty name, an absent
address, an empty UPI id, a zero latitude and an absent longitude leaves
every column of the row unchanged, while a truthy name is written. -/
theorem C10_profile_falsy_dropped_witness :
    (updateStoreProfile sampleStoreRow
        { name := some "", address := none, upiId := some "",
          lat := some 0, lng := none }).name = sampleStoreRow.name ∧
    (updateStoreProfile sampleStoreRow
        { name := some "", address := none, upiId := some "",
          lat := some 0, lng := none }).lat = sampleStoreRow.lat ∧
    (updateStoreProfile sampleStoreRow
        { name := some "New Mart", address := none, upiId := none,
          lat := none, lng := none }).name = "New Mart" :=
  ⟨(C10_profile_falsy_dropped sampleStoreRow _).1 (Or.inr rfl),
   (C10_profile_falsy_dropped sampleStoreRow _).2.2.2.1 (Or.inr rfl),
   (C10_profile_falsy_dropped sampleStoreRow _).2.2.2.2.2.1 "New Mart" rfl (by decide)⟩

/-- C5: at creation the order total equals the sum over its line items
of unit price times quantity, and the stored total and line items are
never recomputed afterwards: the demo simulator tick, the store-owner
demo status update and the customer realtime merge all preserve them,
and adding to the cart never changes the price of an existing line
(prices are snapshot when added). -/
theorem C5_total_invariant :
    (∀ (details : PendingDetails) (cart : List CartItem) (now addr nm ph : String)
       (o : Order), handlePaymentSuccess (some details) cart now addr nm ph = some o →
       o.total = (o.items.map fun it => it.price * (it.quantity : ℚ)).sum ∧
       o.items = cart) ∧
    (∀ o : Order, (simTick o).total = o.total ∧ (simTick o).items = o.items) ∧
    (∀ (orders : List Order) (oid st : String),
       (demoOrderStatusUpdate orders oid st).map Order.total = orders.map Order.total ∧
       (demoOrderStatusUpdate orders oid st).map Order.items = orders.map Order.items) ∧
    (∀ (prev : List Order) (u : DbOrderUpdate),
       (customerRealtimeUpdate prev u).map Order.total = prev.map Order.total) ∧
    (∀ (store : Option StoreRef) (cart : List CartItem) (p : Product) (q : Int)
       (b : String) (pr : Option ℚ) (now : String) (i : Nat), i < cart.length →
       ((addToCart store cart p q b pr now)[i]?).map CartItem.price =
         (cart[i]?).map CartItem.price) := by
  refine ⟨?_, ?_, ?_, ?_, ?_⟩
  · intro details cart now addr nm ph o h
    cases cart with
    | nil => simp [handlePaymentSuccess] at h
    | cons first rest =>
      simp only [handlePaymentSuccess, Option.some.injEq] at h
      subst h
      exact ⟨rfl, rfl⟩
  · intro o
    constructor <;> (simp only [simTick]; split_ifs <;> rfl)
  · intro orders oid st
    constructor <;>
      (induction orders with
       | nil => rfl
       | cons o rest ih =>
         simp only [demoOrderStatusUpdate, List.map_cons] at ih ⊢
         refine congrArg₂ _ ?_ ih
         by_cases hid : o.id = oid <;> simp [hid])
  · intro prev u
    induction prev with
    | nil => rfl
    | cons o rest ih =>
      simp only [customerRealtimeUpdate, List.map_cons] at ih ⊢
      refine congrArg₂ _ ?_ ih
      by_cases hid : o.id = u.id <;> simp [hid]
  · intro store cart p q b pr now i hi
    cases store with
    | none => rfl
    | some st =>
      simp only [addToCart]
      cases hfi : List.findIdx?
          (fun item => item.originalProductId == p.id && item.selectedBrand == b) cart with
      | none =>
        rw [List.getElem?_append]
        simp [hi]
      | some idx =>
        dsimp only
        cases hgi : cart[idx]? with
        | none => rfl
        | some item =>
          dsimp only
          rcases eq_or_ne idx i with rfl | hne
          · rw [List.getElem?_set_self hi]
            simp [hgi]
          · rw [List.getElem?_set_ne hne]

/-- Witness for C5 at a concrete checkout of one line of 3 units at 40:
the created order totals 120, and adding a further product leaves the
existing line's price untouched. -/
theorem C5_total_invariant_witness :
    (sampleCreatedOrder.total =
       (sampleCreatedOrder.items.map fun it => it.price * (it.quantity : ℚ)).sum ∧
     sampleCreatedOrder.items = [sampleCartItem]) ∧
    ((addToCart (some { id := "s1", name := "Fresh Mart" }) [sampleCartItem]
        sampleProduct 1 "Generic" none "t1")[0]?).map CartItem.price =
      ([sampleCartItem][0]?).map CartItem.price :=
  ⟨C5_total_invariant.1 { deliveryType := "INSTANT", scheduledTime := none }
      [sampleCartItem] "t0" "MG Road" "Asha" "999" sampleCreatedOrder (by
        simp only [handlePaymentSuccess]
        norm_num [sampleCartItem, sampleCreatedOrder]
        decide),
   C5_total_invariant.2.2.2.2 (some { id := "s1", name := "Fresh Mart" })
      [sampleCartItem] sampleProduct 1 "Generic" none "t1" 0 (by decide)⟩

end MyStore
